import Mathlib

/-!
Verification development for the AWB detail decoder (`app/services/awb_parser.py`)
and the detailed-report aggregator (`app/services/export_service.py`).

Modelling conventions:
* An XML element tree (the output of `xml.etree.ElementTree.fromstring`) is the
  inductive `XmlElem`: tag, optional text, ordered list of direct children.
  `find` returns the first direct child with a given tag, `findall` all of them,
  in document order, exactly as ElementTree does for a simple tag path.
* The combination of UTF-8 decoding and `ET.fromstring` is kept abstract as a
  parameter `fromstring : List Nat → Option XmlElem` (bytes in, tree out,
  `none` when the library would raise); everything downstream of it is
  translated concretely from the source.
* Python `float` values are modelled as `ℚ` (exact rationals), Python `int` as
  `ℤ`.  `float(text)` / `int(text)` are modelled by `pyFloat?` / `pyInt?`,
  covering the usual decimal fragment (optional sign, digits, one decimal
  point, surrounding whitespace); a failed conversion is `none`, matching the
  `ValueError` branches of the source.
* Python `round(x, n)` is round-half-to-even at `n` decimal digits (`pyRound`).
* `str.strip()` is modelled by `pyStrip` (drop whitespace from both ends).
-/

/-- One parsed XML element: tag name, the text directly inside the element
(`none` when ElementTree would report `text is None`), and the ordered list of
direct child elements. -/
inductive XmlElem : Type where
  | mk (tag : String) (text : Option String) (children : List XmlElem)

def XmlElem.tag : XmlElem → String
  | .mk t _ _ => t

def XmlElem.text : XmlElem → Option String
  | .mk _ tx _ => tx

def XmlElem.children : XmlElem → List XmlElem
  | .mk _ _ cs => cs

/-- `elem.find(tag)`: first direct child with the given tag, else `None`. -/
def XmlElem.find (e : XmlElem) (t : String) : Option XmlElem :=
  e.children.find? (fun c => c.tag == t)

/-- `elem.findall(tag)`: all direct children with the given tag, in order. -/
def XmlElem.findall (e : XmlElem) (t : String) : List XmlElem :=
  e.children.filter (fun c => c.tag == t)

/-- Drop whitespace characters from both ends of a character list. -/
def trimChars (l : List Char) : List Char :=
  ((l.dropWhile Char.isWhitespace).reverse.dropWhile Char.isWhitespace).reverse

/-- Model of Python `str.strip()`. -/
def pyStrip (s : String) : String :=
  ⟨trimChars s.data⟩

/-- Value of a digit string (assuming all characters are digits). -/
def digitsNat (l : List Char) : Nat :=
  l.foldl (fun a c => a * 10 + (c.toNat - 48)) 0

/-- Non-empty and all decimal digits. -/
def allDigits (l : List Char) : Bool :=
  !l.isEmpty && l.all Char.isDigit

/-- Model of Python `int(...)` on an already-trimmed character list:
optional sign followed by at least one digit. -/
def pyIntOfChars? : List Char → Option Int
  | '+' :: rest => if allDigits rest then some (Int.ofNat (digitsNat rest)) else none
  | '-' :: rest => if allDigits rest then some (-(Int.ofNat (digitsNat rest))) else none
  | l => if allDigits l then some (Int.ofNat (digitsNat l)) else none

/-- Model of Python `int(text)`: strip whitespace, then signed digits;
`none` models the `ValueError` case. -/
def pyInt? (s : String) : Option Int :=
  pyIntOfChars? (trimChars s.data)

/-- Unsigned decimal literal: `12`, `12.`, `.5`, `12.5`; at least one digit. -/
def decimalOfChars? (l : List Char) : Option ℚ :=
  match l.span (fun c => c != '.') with
  | (ip, []) => if allDigits ip then some ((digitsNat ip : ℚ)) else none
  | (ip, _ :: fp) =>
      if ip.all Char.isDigit && fp.all Char.isDigit && (!ip.isEmpty || !fp.isEmpty) then
        some ((digitsNat ip : ℚ) + (digitsNat fp : ℚ) / ((10 : ℚ) ^ fp.length))
      else none

/-- Model of Python `float(...)` on an already-trimmed character list. -/
def pyFloatOfChars? : List Char → Option ℚ
  | '+' :: rest => decimalOfChars? rest
  | '-' :: rest => (decimalOfChars? rest).map (fun q => -q)
  | l => decimalOfChars? l

/-- Model of Python `float(text)`: strip whitespace, then a signed decimal
literal; `none` models the `ValueError` case. -/
def pyFloat? (s : String) : Option ℚ :=
  pyFloatOfChars? (trimChars s.data)

/-- Nearest integer, ties to even (Python `round`'s rounding mode). -/
def roundHalfEven (q : ℚ) : ℤ :=
  if q - ⌊q⌋ < 1/2 then ⌊q⌋
  else if (1 : ℚ)/2 < q - ⌊q⌋ then ⌊q⌋ + 1
  else if ⌊q⌋ % 2 = 0 then ⌊q⌋ else ⌊q⌋ + 1

/-- Model of Python `round(q, ndigits)`. -/
def pyRound (q : ℚ) (ndigits : Nat) : ℚ :=
  (roundHalfEven (q * (10 : ℚ) ^ ndigits) : ℚ) / (10 : ℚ) ^ ndigits

/-- `AWBItem` dataclass: single rate/charge line item. -/
structure AWBItem where
  pieces : Int := 0
  gross_weight : ℚ := 0
  chargeable_weight : ℚ := 0
  rate_charge : ℚ := 0
  total : ℚ := 0
  nature : String := ""
  scale : String := "K"
  rate_class : String := ""
  item_number : String := ""
  dimensions : String := ""
  deriving DecidableEq

/-- `OtherCharge` dataclass: other charges (PS, AWC, etc.). -/
structure OtherCharge where
  code : String := ""
  amount : ℚ := 0
  due : String := ""
  three_letter_code : String := ""
  deriving DecidableEq

/-- `RouteInfo` dataclass: flight routing information (`to` and `by` are Lean
tokens, hence the field names `to_` and `by_`). -/
structure RouteInfo where
  to_ : List String := []
  by_ : List String := []
  flights : List String := []
  deriving DecidableEq

/-- `ChargesSummary` dataclass: summary of all charges. -/
structure ChargesSummary where
  weight_charge_prepaid : ℚ := 0
  weight_charge_collect : ℚ := 0
  valuation_charge_prepaid : ℚ := 0
  valuation_charge_collect : ℚ := 0
  tax_prepaid : ℚ := 0
  tax_collect : ℚ := 0
  other_due_agent_prepaid : ℚ := 0
  other_due_agent_collect : ℚ := 0
  other_due_carrier_prepaid : ℚ := 0
  other_due_carrier_collect : ℚ := 0
  total_prepaid : ℚ := 0
  total_collect : ℚ := 0
  deriving DecidableEq

/-- `AWBDetails` dataclass: complete AWB document details parsed from XML. -/
structure AWBDetails where
  awb_type : String := ""
  airline_prefix : String := ""
  serial_number : String := ""
  hawb : String := ""
  weight_payment_type : String := ""
  other_charges_payment_type : String := ""
  calculations : String := ""
  shipper_details : String := ""
  shipper_account : String := ""
  consignee_details : String := ""
  consignee_account : String := ""
  agent_details : String := ""
  agent_iata_code : String := ""
  issued_by_details : String := ""
  airport_departure : String := ""
  airport_departure_code : String := ""
  airport_destination : String := ""
  route : RouteInfo := {}
  items : List AWBItem := []
  total_pieces : Int := 0
  total_weight : ℚ := 0
  weight_scale : String := "K"
  items_total : ℚ := 0
  other_charges : List OtherCharge := []
  charges_summary : ChargesSummary := {}
  currency : String := ""
  insurance : String := ""
  value_carrier : String := ""
  value_customs : String := ""
  reference_number : String := ""
  handling_information : String := ""
  accounting_information : String := ""
  sci : String := ""
  shipper_signature : String := ""
  carrier_signature : String := ""
  carrier_date : String := ""
  carrier_place : String := ""
  notes : String := ""
  deriving DecidableEq

namespace AWBParser

/-- `AWBParser._get_text`: text content of a tag, stripped; `""` when the tag
is absent or its text is `None` or empty. -/
def get_text (root : XmlElem) (tag : String) : String :=
  match root.find tag with
  | some elem =>
      match elem.text with
      | some t => if t != "" then pyStrip t else ""
      | none => ""
  | none => ""

/-- `AWBParser._get_int`: integer value of a tag, `0` on absence or
conversion failure. -/
def get_int (root : XmlElem) (tag : String) : Int :=
  let text := get_text root tag
  if text = "" then 0
  else
    match pyInt? text with
    | some v => v
    | none => 0

/-- `AWBParser._get_float`: rational value of a tag, `0` on absence or
conversion failure. -/
def get_float (root : XmlElem) (tag : String) : ℚ :=
  let text := get_text root tag
  if text = "" then 0
  else
    match pyFloat? text with
    | some v => v
    | none => 0

/-- One `awb-item` element mapped to an `AWBItem` (the constructor call inside
`AWBParser._parse_items`). -/
def item_of_elem (e : XmlElem) : AWBItem :=
  { pieces := get_int e "pieces"
    gross_weight := get_float e "gross-weight"
    chargeable_weight := get_float e "chargeable-weight"
    rate_charge := get_float e "rate-charge"
    total := get_float e "total"
    nature := get_text e "nature"
    scale := (let s := get_text e "scale"; if s = "" then "K" else s)
    rate_class := get_text e "rate-class"
    item_number := get_text e "item-number"
    dimensions := get_text e "dimensions" }

/-- `AWBParser._parse_items`: all `awb-item` children of the `items`
container, in document order; `[]` when the container is absent. -/
def parse_items (root : XmlElem) : List AWBItem :=
  match root.find "items" with
  | some items_elem => (items_elem.findall "awb-item").map item_of_elem
  | none => []

/-- One `awb-other-charges` element mapped to an `OtherCharge`. -/
def charge_of_elem (e : XmlElem) : OtherCharge :=
  { code := get_text e "code"
    amount := get_float e "amount"
    due := get_text e "due"
    three_letter_code := get_text e "three-letter-code" }

/-- `AWBParser._parse_other_charges`. -/
def parse_other_charges (root : XmlElem) : List OtherCharge :=
  match root.find "other-charges" with
  | some charges_elem => (charges_elem.findall "awb-other-charges").map charge_of_elem
  | none => []

/-- Value taken from the `i`-th `string` child inside a charges-summary
container: `0.0` unless the child exists, has truthy text, and that text
converts with `float(...)`. -/
def pair_val (strings : List XmlElem) (i : Nat) : ℚ :=
  match strings.get? i with
  | some e =>
      match e.text with
      | some t =>
          if t != "" then
            match pyFloat? t with
            | some v => v
            | none => 0
          else 0
      | none => 0
  | none => 0

/-- The `get_pair` helper inside `AWBParser._parse_charges_summary`: the
(prepaid, collect) pair read from the first two `string` children of the
container named `tag`; `(0, 0)` when the container is absent. -/
def get_pair (root : XmlElem) (tag : String) : ℚ × ℚ :=
  match root.find tag with
  | some elem => (pair_val (elem.findall "string") 0, pair_val (elem.findall "string") 1)
  | none => (0, 0)

/-- `AWBParser._parse_charges_summary`. -/
def parse_charges_summary (root : XmlElem) : ChargesSummary :=
  { weight_charge_prepaid := (get_pair root "weight-charge").1
    weight_charge_collect := (get_pair root "weight-charge").2
    valuation_charge_prepaid := (get_pair root "valuation-charge").1
    valuation_charge_collect := (get_pair root "valuation-charge").2
    tax_prepaid := (get_pair root "tax").1
    tax_collect := (get_pair root "tax").2
    other_due_agent_prepaid := (get_pair root "other-due-agent").1
    other_due_agent_collect := (get_pair root "other-due-agent").2
    other_due_carrier_prepaid := (get_pair root "other-due-carrier").1
    other_due_carrier_collect := (get_pair root "other-due-carrier").2
    total_prepaid := (get_pair root "weight-total").1
    total_collect := (get_pair root "weight-total").2 }

/-- Route list extraction: `[s.text for s in container.findall('string') if s.text]`
— texts are taken verbatim (no strip), falsy texts (absent or `""`) skipped;
an absent container yields `[]`. -/
def string_texts (container : Option XmlElem) : List String :=
  match container with
  | some e =>
      (e.findall "string").filterMap (fun s =>
        match s.text with
        | some t => if t != "" then some t else none
        | none => none)
  | none => []

/-- The route-building block of `AWBParser.parse`. -/
def parse_route (root : XmlElem) : RouteInfo :=
  { to_ := string_texts (root.find "route-to")
    by_ := string_texts (root.find "route-by")
    flights := string_texts (root.find "requested-flight") }

/-- The body of `AWBParser.parse` applied to a successfully built element
tree: field-by-field translation of the assignments in the source. -/
def parseRoot (root : XmlElem) : AWBDetails :=
  { awb_type := get_text root "awb-type"
    airline_prefix := get_text root "airline-prefix"
    serial_number := get_text root "awb-serial-number"
    hawb := get_text root "hawb"
    weight_payment_type := get_text root "weight-payment-type"
    other_charges_payment_type := get_text root "other-charges-payment-type"
    calculations := get_text root "calculations"
    shipper_details := get_text root "shipper-details"
    shipper_account := get_text root "shipper-account-number"
    consignee_details := get_text root "consignee-details"
    consignee_account := get_text root "consignee-account-number"
    agent_details := get_text root "agent-details"
    agent_iata_code := get_text root "agent-iata-cargo-numeric-code"
    issued_by_details := get_text root "issued-by-details"
    airport_departure := get_text root "airport-departure"
    airport_departure_code := get_text root "airport-city-code-departure"
    airport_destination := get_text root "airport-destination"
    route := parse_route root
    items := parse_items root
    total_pieces := get_int root "item-pieces"
    total_weight := get_float root "item-weight"
    weight_scale := (let s := get_text root "item-weight-scale"; if s = "" then "K" else s)
    items_total := get_float root "item-total"
    other_charges := parse_other_charges root
    charges_summary := parse_charges_summary root
    currency := get_text root "currency"
    insurance := get_text root "insurance"
    value_carrier := get_text root "value-carrier"
    value_customs := get_text root "value-customs"
    reference_number := get_text root "reference-number"
    handling_information := get_text root "handling-information"
    accounting_information := get_text root "accounting-information"
    sci := get_text root "sci"
    shipper_signature := get_text root "shipper-signature"
    carrier_signature := get_text root "carrier-signature"
    carrier_date := get_text root "carrier-date"
    carrier_place := get_text root "carrier-place"
    notes := get_text root "notes" }

/-- `AWBParser.parse`: `None` for falsy input (`None` / `b""`); `None` when
UTF-8 decoding or `ET.fromstring` raises (the `except` branch, modelled by
`fromstring` returning `none`); otherwise the structured details. -/
def parse (fromstring : List Nat → Option XmlElem) :
    Option (List Nat) → Option AWBDetails
  | none => none
  | some bs =>
      if bs.isEmpty then none
      else
        match fromstring bs with
        | some root => some (parseRoot root)
        | none => none

end AWBParser

/-- The per-document record handed to the export functions (subset of the
`Document` model actually read by them; the raw XML blob is
`document_data`). -/
structure Document where
  document_number : String := ""
  reference_number : String := ""
  document_date : String := ""
  shipper : String := ""
  consignee : String := ""
  origin : String := ""
  destination : String := ""
  status : Int := 0
  document_data : Option (List Nat) := none
  deriving DecidableEq

namespace ExportService

/-- `AWBParser.parse(doc.document_data) if doc.document_data else None`:
the per-document decode step of the export functions. -/
def docDetails (fromstring : List Nat → Option XmlElem) (doc : Document) :
    Option AWBDetails :=
  match doc.document_data with
  | none => none
  | some bs => if bs.isEmpty then none else AWBParser.parse fromstring (some bs)

/-- The six numeric facts plus currency extracted per document for the
summary sheet (`pieces`, `gross_weight`, `chargeable_weight`, `currency`,
`items_total`, `other_charges_sum`, `prepaid_total`); all zero / empty when
the decode produced nothing. -/
structure SummaryFacts where
  pieces : Int := 0
  gross_weight : ℚ := 0
  chargeable_weight : ℚ := 0
  currency : String := ""
  items_total : ℚ := 0
  other_charges_sum : ℚ := 0
  prepaid_total : ℚ := 0
  deriving DecidableEq

/-- The `if awb_details:` block of the summary loop. -/
def summaryFactsOf : Option AWBDetails → SummaryFacts
  | none => {}
  | some d =>
      { pieces := d.total_pieces
        gross_weight := d.total_weight
        chargeable_weight := (d.items.map AWBItem.chargeable_weight).sum
        currency := d.currency
        items_total := d.items_total
        other_charges_sum := (d.other_charges.map OtherCharge.amount).sum
        prepaid_total := d.charges_summary.total_prepaid }

/-- Sheet 1: one summary row (document, numeric facts) per input document,
in input order. -/
def summaryRows (fromstring : List Nat → Option XmlElem) (docs : List Document) :
    List (Document × SummaryFacts) :=
  docs.map (fun doc => (doc, summaryFactsOf (docDetails fromstring doc)))

/-- The six running totals accumulated by the summary loop. -/
structure Totals where
  pieces : Int := 0
  gross_weight : ℚ := 0
  chargeable_weight : ℚ := 0
  freight : ℚ := 0
  other_charges : ℚ := 0
  prepaid : ℚ := 0
  deriving DecidableEq

/-- One iteration of the summary loop's accumulation: totals change only when
the document decoded (`if awb_details:`). -/
def totStep (fromstring : List Nat → Option XmlElem) (t : Totals) (doc : Document) :
    Totals :=
  match docDetails fromstring doc with
  | none => t
  | some d =>
      { pieces := t.pieces + d.total_pieces
        gross_weight := t.gross_weight + d.total_weight
        chargeable_weight := t.chargeable_weight + (d.items.map AWBItem.chargeable_weight).sum
        freight := t.freight + d.items_total
        other_charges := t.other_charges + (d.other_charges.map OtherCharge.amount).sum
        prepaid := t.prepaid + d.charges_summary.total_prepaid }

/-- The totals after the whole summary loop. -/
def reportTotals (fromstring : List Nat → Option XmlElem) (docs : List Document) :
    Totals :=
  docs.foldl (totStep fromstring) {}

/-- Sheet 5 (`stats_data`): metric/value pairs exactly as the source builds
them, averages guarded by `if documents else 0`. -/
def statsBlock (fromstring : List Nat → Option XmlElem) (docs : List Document) :
    List (String × ℚ) :=
  let t := reportTotals fromstring docs
  [("Nombre de documents", (docs.length : ℚ)),
   ("Total pièces", (t.pieces : ℚ)),
   ("Poids brut total (kg)", pyRound t.gross_weight 2),
   ("Poids taxable total (kg)", pyRound t.chargeable_weight 2),
   ("Total fret", pyRound t.freight 2),
   ("Total autres frais", pyRound t.other_charges 2),
   ("Total prépayé", pyRound t.prepaid 2),
   ("Moyenne pièces/AWB", if docs.isEmpty then 0 else pyRound ((t.pieces : ℚ) / (docs.length : ℚ)) 1),
   ("Moyenne poids/AWB (kg)", if docs.isEmpty then 0 else pyRound (t.gross_weight / (docs.length : ℚ)) 1),
   ("Moyenne montant/AWB", if docs.isEmpty then 0 else pyRound (t.prepaid / (docs.length : ℚ)) 2)]

/-- One row of sheet 2 ("Lignes de tarification"). -/
structure ItemRow where
  document_number : String := ""
  document_date : String := ""
  shipper : String := ""
  pieces : Int := 0
  gross_weight : ℚ := 0
  chargeable_weight : ℚ := 0
  rate_charge : ℚ := 0
  total : ℚ := 0
  nature : String := ""
  currency : String := ""
  deriving DecidableEq

/-- The cells written for one (document, line item) pair; `nature` is
truncated to 100 characters when truthy (`item.nature[:100] if item.nature
else ""`). -/
def itemRowOf (doc : Document) (d : AWBDetails) (item : AWBItem) : ItemRow :=
  { document_number := doc.document_number
    document_date := doc.document_date
    shipper := doc.shipper
    pieces := item.pieces
    gross_weight := item.gross_weight
    chargeable_weight := item.chargeable_weight
    rate_charge := item.rate_charge
    total := item.total
    nature := if item.nature != "" then item.nature.take 100 else ""
    currency := d.currency }

/-- Rows contributed by one document to sheet 2: guarded by
`if awb_details and awb_details.items:`. -/
def docItemRows (fromstring : List Nat → Option XmlElem) (doc : Document) :
    List ItemRow :=
  match docDetails fromstring doc with
  | some d => if d.items.isEmpty then [] else d.items.map (itemRowOf doc d)
  | none => []

/-- Sheet 2: line-item rows, document order then source line order. -/
def itemRows (fromstring : List Nat → Option XmlElem) (docs : List Document) :
    List ItemRow :=
  docs.flatMap (docItemRows fromstring)

/-- The fixed `charge_code_names` lookup; unknown codes fall back to the raw
code (`dict.get(code, code)`). -/
def charge_code_name (code : String) : String :=
  if code = "PS" then "Frais de sécurité"
  else if code = "AWC" then "Air Waybill Charge"
  else if code = "FC" then "Fuel Surcharge"
  else if code = "SC" then "Security Charge"
  else if code = "MY" then "Miscellaneous Charges"
  else if code = "RA" then "Dangerous Goods"
  else if code = "SR" then "Screen Charge"
  else if code = "AW" then "AWB Fee"
  else code

/-- One row of sheet 3 ("Autres Frais"). -/
structure ChargeRow where
  document_number : String := ""
  document_date : String := ""
  code : String := ""
  description : String := ""
  amount : ℚ := 0
  due : String := ""
  currency : String := ""
  deriving DecidableEq

/-- The cells written for one (document, other charge) pair. -/
def chargeRowOf (doc : Document) (d : AWBDetails) (charge : OtherCharge) : ChargeRow :=
  { document_number := doc.document_number
    document_date := doc.document_date
    code := charge.code
    description := charge_code_name charge.code
    amount := charge.amount
    due := charge.due
    currency := d.currency }

/-- Rows contributed by one document to sheet 3: guarded by
`if awb_details and awb_details.other_charges:`. -/
def docChargeRows (fromstring : List Nat → Option XmlElem) (doc : Document) :
    List ChargeRow :=
  match docDetails fromstring doc with
  | some d => if d.other_charges.isEmpty then [] else d.other_charges.map (chargeRowOf doc d)
  | none => []

/-- Sheet 3: other-charge rows, document order then source order. -/
def chargeRows (fromstring : List Nat → Option XmlElem) (docs : List Document) :
    List ChargeRow :=
  docs.flatMap (docChargeRows fromstring)

/-- One row of sheet 4 ("Routing"). -/
structure RoutingRow where
  document_number : String := ""
  document_date : String := ""
  origin : String := ""
  destination : String := ""
  via : String := ""
  carriers : String := ""
  flights : String := ""
  handling : String := ""
  deriving DecidableEq

/-- `sep.join(filter(None, l)) if l else ""`. -/
def joinTruthy (sep : String) (l : List String) : String :=
  if l.isEmpty then "" else String.intercalate sep (l.filter (fun s => s != ""))

/-- The cells written for one routing row: the three route fields and the
handling text default to `""` when the decode produced nothing. -/
def routingRowOf (doc : Document) (od : Option AWBDetails) : RoutingRow :=
  match od with
  | some d =>
      { document_number := doc.document_number
        document_date := doc.document_date
        origin := doc.origin
        destination := doc.destination
        via := joinTruthy " → " d.route.to_
        carriers := joinTruthy ", " d.route.by_
        flights := joinTruthy ", " d.route.flights
        handling := d.handling_information }
  | none =>
      { document_number := doc.document_number
        document_date := doc.document_date
        origin := doc.origin
        destination := doc.destination
        via := ""
        carriers := ""
        flights := ""
        handling := "" }

/-- Sheet 4: exactly one routing row per document, in input order, decode
success or not. -/
def routingRows (fromstring : List Nat → Option XmlElem) (docs : List Document) :
    List RoutingRow :=
  docs.map (fun doc => routingRowOf doc (docDetails fromstring doc))

/-- One body row of the PDF document table: either a rendered document (with
its decode result) or the synthetic `"+ N autres documents"` overflow row. -/
inductive PdfRow : Type where
  | doc (document : Document) (details : Option AWBDetails)
  | more (count : Nat)
  deriving DecidableEq

/-- The PDF document table body (`export_detailed_awb_report_pdf`): rows for
`documents[:50]`, plus one overflow row when `len(documents) > 50`. -/
def pdfDocRows (fromstring : List Nat → Option XmlElem) (docs : List Document) :
    List PdfRow :=
  ((docs.take 50).map (fun d => PdfRow.doc d (docDetails fromstring d))) ++
    (if 50 < docs.length then [PdfRow.more (docs.length - 50)] else [])

end ExportService

/-! ## Concrete inputs used by witnesses and counterexamples -/

/-- An `awb-item` whose pieces text carries a negative number. -/
def negItemElem : XmlElem := .mk "awb-item" none [.mk "pieces" (some "-1") []]

/-- A document tree containing `negItemElem`. -/
def negItemsRoot : XmlElem := .mk "awb" none [.mk "items" none [negItemElem]]

/-- An `awb-item` with nonnegative numeric texts and a missing
chargeable-weight tag. -/
def posItemElem : XmlElem :=
  .mk "awb-item" none [.mk "pieces" (some "2") [], .mk "gross-weight" (some "1.5") []]

/-- The `items` container around `posItemElem`. -/
def posItemsContainer : XmlElem := .mk "items" none [posItemElem]

/-- A document tree containing `posItemsContainer`. -/
def posItemsRoot : XmlElem := .mk "awb" none [posItemsContainer]

/-- A tree with one route entry carrying surrounding whitespace and a text
field carrying surrounding whitespace. -/
def routeRoot : XmlElem :=
  .mk "awb" none
    [.mk "route-to" none [.mk "string" (some " GVA ") []],
     .mk "notes" (some "  hello  ") []]

/-- Byte-to-tree map serving `routeRoot` for the blob `[7]`. -/
def routeF : List Nat → Option XmlElem :=
  fun bs => if bs = [7] then some routeRoot else none

/-- A document whose blob decodes to `routeRoot`. -/
def routeDoc : Document := { document_number := "R1", document_data := some [7] }

/-- A tree whose only content is a gross weight of 0.125 kg. -/
def weightRoot : XmlElem := .mk "awb" none [.mk "item-weight" (some "0.125") []]

/-- Byte-to-tree map serving `weightRoot` for the blob `[0]`. -/
def weightF : List Nat → Option XmlElem :=
  fun bs => if bs = [0] then some weightRoot else none

/-- A document whose blob decodes to `weightRoot`. -/
def weightDoc : Document := { document_number := "AWB1", document_data := some [0] }

/-- A document carrying no blob at all. -/
def emptyDoc : Document := {}

/-- A byte-to-tree map on which every parse fails. -/
def noneF : List Nat → Option XmlElem := fun _ => none

/-- Tree with a single rate line item. -/
def itemsRoot1 : XmlElem :=
  .mk "awb" none [.mk "items" none [.mk "awb-item" none [.mk "pieces" (some "1") []]]]

/-- Tree with two rate line items. -/
def itemsRoot2 : XmlElem :=
  .mk "awb" none
    [.mk "items" none
      [.mk "awb-item" none [.mk "pieces" (some "2") []],
       .mk "awb-item" none [.mk "pieces" (some "3") []]]]

/-- Tree with no rate line items. -/
def itemsRoot3 : XmlElem := .mk "awb" none []

/-- Byte-to-tree map serving the three item trees for blobs `[1]`, `[2]`, `[3]`. -/
def itemsF : List Nat → Option XmlElem :=
  fun bs =>
    if bs = [1] then some itemsRoot1
    else if bs = [2] then some itemsRoot2
    else if bs = [3] then some itemsRoot3
    else none

/-- Document whose blob decodes to `itemsRoot1`. -/
def itemsDoc1 : Document := { document_number := "D1", document_data := some [1] }

/-- Document whose blob decodes to `itemsRoot2`. -/
def itemsDoc2 : Document := { document_number := "D2", document_data := some [2] }

/-- Document whose blob decodes to `itemsRoot3`. -/
def itemsDoc3 : Document := { document_number := "D3", document_data := some [3] }

/-- Fifty-one blob-less documents, for the PDF truncation bound. -/
def manyDocs : List Document := List.replicate 51 {}

/-! ## Claim theorems -/

/-- C3: `decode(None)`, `decode(b"")`, and decode of bytes on which the XML
library raises all return `None`; since `AWBParser.parse` is a total function
into `Option AWBDetails`, returning `none` is its only observable failure
mode, and the characterisation below is exact: `none` is returned precisely
for absent input, empty input, or input the XML library cannot parse. -/
theorem c3_decoder_failure_modes (f : List Nat → Option XmlElem)
    (b : Option (List Nat)) :
    AWBParser.parse f b = none ↔
      (b = none ∨ b = some [] ∨ ∃ bs, b = some bs ∧ f bs = none) := by
  cases b with
  | none => simp [AWBParser.parse]
  | some bs =>
      by_cases hbs : bs = []
      · subst hbs
        simp [AWBParser.parse]
      · cases hf : f bs with
        | none =>
            have hp : AWBParser.parse f (some bs) = none := by
              simp [AWBParser.parse, hbs, hf]
            rw [hp]
            constructor
            · intro _
              exact Or.inr (Or.inr ⟨bs, rfl, hf⟩)
            · intro _
              rfl
        | some root =>
            have hp : AWBParser.parse f (some bs) =
                some (AWBParser.parseRoot root) := by
              simp [AWBParser.parse, hbs, hf]
            rw [hp]
            constructor
            · intro h
              exact absurd h (by simp)
            · rintro (h | h | ⟨bs2, hb2, hf2⟩)
              · exact absurd h (by simp)
              · simp only [Option.some.injEq] at h
                exact absurd h hbs
              · simp only [Option.some.injEq] at hb2
                subst hb2
                rw [hf] at hf2
                exact absurd hf2 (by simp)

/-- An absent tag yields the empty string from `_get_text`. -/
theorem get_text_of_find_none {root : XmlElem} {tag : String}
    (h : XmlElem.find root tag = none) : AWBParser.get_text root tag = "" := by
  simp [AWBParser.get_text, h]

/-- An absent tag yields `0` from `_get_int`. -/
theorem get_int_of_find_none {root : XmlElem} {tag : String}
    (h : XmlElem.find root tag = none) : AWBParser.get_int root tag = 0 := by
  simp [AWBParser.get_int, get_text_of_find_none h]

/-- An absent tag yields `0.0` from `_get_float`. -/
theorem get_float_of_find_none {root : XmlElem} {tag : String}
    (h : XmlElem.find root tag = none) : AWBParser.get_float root tag = 0 := by
  simp [AWBParser.get_float, get_text_of_find_none h]

/-- When `int(...)` would raise, `_get_int` substitutes `0`. -/
theorem get_int_of_unparsable {root : XmlElem} {tag : String}
    (h : pyInt? (AWBParser.get_text root tag) = none) :
    AWBParser.get_int root tag = 0 := by
  unfold AWBParser.get_int
  by_cases he : AWBParser.get_text root tag = ""
  · simp [he]
  · simp [he, h]

/-- When `float(...)` would raise, `_get_float` substitutes `0.0`. -/
theorem get_float_of_unparsable {root : XmlElem} {tag : String}
    (h : pyFloat? (AWBParser.get_text root tag) = none) :
    AWBParser.get_float root tag = 0 := by
  unfold AWBParser.get_float
  by_cases he : AWBParser.get_text root tag = ""
  · simp [he]
  · simp [he, h]

/-- C4 counterexample: the claim "every missing text field decodes to the
empty string" fails on the weight-scale field — for a root element with no
children at all, `item-weight-scale` is missing but the decoded
`weight_scale` is `"K"`, not `""` (`_get_text(...) or 'K'` in the source). -/
theorem c4_counterexample :
    XmlElem.find (XmlElem.mk "awb" none []) "item-weight-scale" = none ∧
    (AWBParser.parseRoot (XmlElem.mk "awb" none [])).weight_scale ≠ "" := by
  constructor
  · rfl
  · decide

/-- C4 (amended): for every well-formed tree, decode succeeds (never raises);
a missing numeric leaf decodes to `0`/`0.0`, a missing text field decodes to
the empty string **except the weight-scale fields, which default to `"K"`**,
a missing list container decodes to `[]`, and a numeric leaf that is present
but not convertible decodes to the field's zero-value. -/
theorem c4_tolerant_defaults (f : List Nat → Option XmlElem) (bs : List Nat)
    (root elem : XmlElem) (tag : String) :
    (f bs = some root → bs ≠ [] →
      AWBParser.parse f (some bs) = some (AWBParser.parseRoot root)) ∧
    (XmlElem.find elem tag = none →
      AWBParser.get_text elem tag = "" ∧ AWBParser.get_int elem tag = 0 ∧
        AWBParser.get_float elem tag = 0) ∧
    (pyInt? (AWBParser.get_text elem tag) = none → AWBParser.get_int elem tag = 0) ∧
    (pyFloat? (AWBParser.get_text elem tag) = none → AWBParser.get_float elem tag = 0) ∧
    (XmlElem.find root "items" = none → (AWBParser.parseRoot root).items = []) ∧
    (XmlElem.find root "other-charges" = none →
      (AWBParser.parseRoot root).other_charges = []) ∧
    (XmlElem.find root "route-to" = none → (AWBParser.parseRoot root).route.to_ = []) ∧
    (XmlElem.find root "route-by" = none → (AWBParser.parseRoot root).route.by_ = []) ∧
    (XmlElem.find root "requested-flight" = none →
      (AWBParser.parseRoot root).route.flights = []) ∧
    (XmlElem.find root "item-pieces" = none → (AWBParser.parseRoot root).total_pieces = 0) ∧
    (XmlElem.find root "item-weight" = none → (AWBParser.parseRoot root).total_weight = 0) ∧
    (XmlElem.find root "currency" = none → (AWBParser.parseRoot root).currency = "") ∧
    (XmlElem.find root "item-weight-scale" = none →
      (AWBParser.parseRoot root).weight_scale = "K") := by
  refine ⟨?_, ?_, ?_, ?_, ?_, ?_, ?_, ?_, ?_, ?_, ?_, ?_, ?_⟩
  · intro hf hbs
    simp [AWBParser.parse, hbs, hf]
  · intro h
    exact ⟨get_text_of_find_none h, get_int_of_find_none h, get_float_of_find_none h⟩
  · exact get_int_of_unparsable
  · exact get_float_of_unparsable
  · intro h
    show AWBParser.parse_items root = []
    simp [AWBParser.parse_items, h]
  · intro h
    show AWBParser.parse_other_charges root = []
    simp [AWBParser.parse_other_charges, h]
  · intro h
    show AWBParser.string_texts (XmlElem.find root "route-to") = []
    simp [AWBParser.string_texts, h]
  · intro h
    show AWBParser.string_texts (XmlElem.find root "route-by") = []
    simp [AWBParser.string_texts, h]
  · intro h
    show AWBParser.string_texts (XmlElem.find root "requested-flight") = []
    simp [AWBParser.string_texts, h]
  · intro h
    show AWBParser.get_int root "item-pieces" = 0
    exact get_int_of_find_none h
  · intro h
    show AWBParser.get_float root "item-weight" = 0
    exact get_float_of_find_none h
  · intro h
    show AWBParser.get_text root "currency" = ""
    exact get_text_of_find_none h
  · intro h
    show (let s := AWBParser.get_text root "item-weight-scale";
      if s = "" then "K" else s) = "K"
    simp [get_text_of_find_none h]

/-- C4 witness: the amended theorem applied to the childless root — decode
succeeds and the representative missing fields take their defaults. -/
theorem c4_witness :
    ((fun bs => if bs = [0] then some (XmlElem.mk "awb" none []) else none)
        [0] = some (XmlElem.mk "awb" none []) ∧ ([0] : List Nat) ≠ []) ∧
    AWBParser.parse
        (fun bs => if bs = [0] then some (XmlElem.mk "awb" none []) else none)
        (some [0]) = some (AWBParser.parseRoot (XmlElem.mk "awb" none [])) ∧
    (AWBParser.parseRoot (XmlElem.mk "awb" none [])).items = [] ∧
    (AWBParser.parseRoot (XmlElem.mk "awb" none [])).total_pieces = 0 := by
  have h := c4_tolerant_defaults
      (fun bs => if bs = [0] then some (XmlElem.mk "awb" none []) else none) [0]
      (XmlElem.mk "awb" none []) (XmlElem.mk "awb" none []) "currency"
  exact ⟨⟨rfl, by decide⟩, h.1 rfl (by decide), h.2.2.2.2.1 rfl,
    h.2.2.2.2.2.2.2.2.2.1 rfl⟩

/-- C5: each charges-summary category reads at most the first two `string`
children of its container: child 0 populates the prepaid field, child 1 the
collect field, unread positions stay `0.0`, an absent container leaves both
at `0.0`, and children beyond the second are ignored; the twelve
`ChargesSummary` fields are exactly the six category pairs (the grand-total
pair being read from the `weight-total` container). -/
theorem c5_charges_summary_pairs (root elem : XmlElem) (tag : String) :
    (XmlElem.find root tag = none → AWBParser.get_pair root tag = (0, 0)) ∧
    (XmlElem.find root tag = some elem → XmlElem.findall elem "string" = [] →
      AWBParser.get_pair root tag = (0, 0)) ∧
    (∀ e0, XmlElem.find root tag = some elem →
      XmlElem.findall elem "string" = [e0] →
      AWBParser.get_pair root tag = (AWBParser.pair_val [e0] 0, 0)) ∧
    (∀ e0 e1 rest, XmlElem.find root tag = some elem →
      XmlElem.findall elem "string" = e0 :: e1 :: rest →
      AWBParser.get_pair root tag =
        (AWBParser.pair_val [e0] 0, AWBParser.pair_val [e1] 0)) ∧
    ((AWBParser.parseRoot root).charges_summary =
      { weight_charge_prepaid := (AWBParser.get_pair root "weight-charge").1
        weight_charge_collect := (AWBParser.get_pair root "weight-charge").2
        valuation_charge_prepaid := (AWBParser.get_pair root "valuation-charge").1
        valuation_charge_collect := (AWBParser.get_pair root "valuation-charge").2
        tax_prepaid := (AWBParser.get_pair root "tax").1
        tax_collect := (AWBParser.get_pair root "tax").2
        other_due_agent_prepaid := (AWBParser.get_pair root "other-due-agent").1
        other_due_agent_collect := (AWBParser.get_pair root "other-due-agent").2
        other_due_carrier_prepaid := (AWBParser.get_pair root "other-due-carrier").1
        other_due_carrier_collect := (AWBParser.get_pair root "other-due-carrier").2
        total_prepaid := (AWBParser.get_pair root "weight-total").1
        total_collect := (AWBParser.get_pair root "weight-total").2 }) := by
  refine ⟨?_, ?_, ?_, ?_, rfl⟩
  · intro h
    simp [AWBParser.get_pair, h]
  · intro h hs
    simp [AWBParser.get_pair, h, hs, AWBParser.pair_val]
  · intro e0 h hs
    simp [AWBParser.get_pair, h, hs, AWBParser.pair_val]
  · intro e0 e1 rest h hs
    simp [AWBParser.get_pair, h, hs, AWBParser.pair_val]

/-- C5 witness: a container holding the single value `"5.5"` populates only
the prepaid side of the grand-total pair. -/
theorem c5_witness :
    XmlElem.find
        (XmlElem.mk "awb" none
          [XmlElem.mk "weight-total" none [XmlElem.mk "string" (some "5.5") []]])
        "weight-total" =
      some (XmlElem.mk "weight-total" none [XmlElem.mk "string" (some "5.5") []]) ∧
    AWBParser.get_pair
        (XmlElem.mk "awb" none
          [XmlElem.mk "weight-total" none [XmlElem.mk "string" (some "5.5") []]])
        "weight-total" = (11/2, 0) := by
  constructor
  · rfl
  · have h := (c5_charges_summary_pairs
        (XmlElem.mk "awb" none
          [XmlElem.mk "weight-total" none [XmlElem.mk "string" (some "5.5") []]])
        (XmlElem.mk "weight-total" none [XmlElem.mk "string" (some "5.5") []])
        "weight-total").2.2.1 (XmlElem.mk "string" (some "5.5") []) rfl rfl
    rw [h]
    with_unfolding_all rfl

/-- `_get_int` is nonnegative when every successful conversion of the
underlying text is nonnegative (the default `0` covers the other cases). -/
theorem get_int_nonneg {root : XmlElem} {tag : String}
    (h : ∀ v, pyInt? (AWBParser.get_text root tag) = some v → 0 ≤ v) :
    0 ≤ AWBParser.get_int root tag := by
  unfold AWBParser.get_int
  by_cases he : AWBParser.get_text root tag = ""
  · simp [he]
  · cases hv : pyInt? (AWBParser.get_text root tag) with
    | none => simp [he, hv]
    | some v => simpa [he, hv] using h v hv

/-- `_get_float` is nonnegative when every successful conversion of the
underlying text is nonnegative. -/
theorem get_float_nonneg {root : XmlElem} {tag : String}
    (h : ∀ v, pyFloat? (AWBParser.get_text root tag) = some v → 0 ≤ v) :
    0 ≤ AWBParser.get_float root tag := by
  unfold AWBParser.get_float
  by_cases he : AWBParser.get_text root tag = ""
  · simp [he]
  · cases hv : pyFloat? (AWBParser.get_text root tag) with
    | none => simp [he, hv]
    | some v => simpa [he, hv] using h v hv

/-- C9 counterexample: decode succeeds on a blob whose rate line item carries
the pieces text `"-1"`, and the resulting item has a negative piece count —
the parser performs no nonnegativity validation, so the claimed invariant
"piece count is an integer ≥ 0" fails as stated. -/
theorem c9_counterexample :
    AWBParser.parse (fun _ => some negItemsRoot) (some [0]) =
      some (AWBParser.parseRoot negItemsRoot) ∧
    (AWBParser.parseRoot negItemsRoot).items =
      [AWBParser.item_of_elem negItemElem] ∧
    (AWBParser.item_of_elem negItemElem).pieces < 0 := by
  refine ⟨rfl, by with_unfolding_all rfl, by with_unfolding_all decide⟩

/-- C9 (amended): each of the three numeric item attributes equals either the
converted source text or the default `0`, so they are nonnegative **provided
every convertible source text for that item is nonnegative** — absent or
unconvertible texts contribute the nonnegative default `0`, but a negative
source value passes through unchanged (no validation is performed). -/
theorem c9_item_fields_nonneg (root container e : XmlElem)
    (hc : XmlElem.find root "items" = some container)
    (he : e ∈ XmlElem.findall container "awb-item")
    (hp : ∀ v, pyInt? (AWBParser.get_text e "pieces") = some v → 0 ≤ v)
    (hg : ∀ v, pyFloat? (AWBParser.get_text e "gross-weight") = some v → 0 ≤ v)
    (hw : ∀ v, pyFloat? (AWBParser.get_text e "chargeable-weight") = some v → 0 ≤ v) :
    AWBParser.item_of_elem e ∈ (AWBParser.parseRoot root).items ∧
    0 ≤ (AWBParser.item_of_elem e).pieces ∧
    0 ≤ (AWBParser.item_of_elem e).gross_weight ∧
    0 ≤ (AWBParser.item_of_elem e).chargeable_weight := by
  refine ⟨?_, get_int_nonneg hp, get_float_nonneg hg, get_float_nonneg hw⟩
  show AWBParser.item_of_elem e ∈ AWBParser.parse_items root
  simp only [AWBParser.parse_items, hc]
  exact List.mem_map_of_mem AWBParser.item_of_elem he

/-- C9 witness: the amended theorem applied to an item whose pieces text is
`"2"`, gross weight `"1.5"`, and whose chargeable-weight tag is absent. -/
theorem c9_witness :
    XmlElem.find posItemsRoot "items" = some posItemsContainer ∧
    (0 ≤ (AWBParser.item_of_elem posItemElem).pieces ∧
     0 ≤ (AWBParser.item_of_elem posItemElem).gross_weight ∧
     0 ≤ (AWBParser.item_of_elem posItemElem).chargeable_weight) := by
  refine ⟨by with_unfolding_all rfl, ?_⟩
  have hmem : posItemElem ∈ XmlElem.findall posItemsContainer "awb-item" := by
    have h : XmlElem.findall posItemsContainer "awb-item" = [posItemElem] := by
      with_unfolding_all rfl
    rw [h]
    exact List.mem_singleton_self posItemElem
  have hp : ∀ v, pyInt? (AWBParser.get_text posItemElem "pieces") = some v → 0 ≤ v := by
    intro v hv
    rw [show pyInt? (AWBParser.get_text posItemElem "pieces") = some 2 from by
      with_unfolding_all rfl] at hv
    obtain rfl := Option.some.inj hv
    decide
  have hg : ∀ v, pyFloat? (AWBParser.get_text posItemElem "gross-weight") = some v →
      0 ≤ v := by
    intro v hv
    rw [show pyFloat? (AWBParser.get_text posItemElem "gross-weight") = some (3/2) from by
      with_unfolding_all rfl] at hv
    obtain rfl := Option.some.inj hv
    norm_num
  have hw : ∀ v, pyFloat? (AWBParser.get_text posItemElem "chargeable-weight") = some v →
      0 ≤ v := by
    intro v hv
    rw [show pyFloat? (AWBParser.get_text posItemElem "chargeable-weight") = none from by
      with_unfolding_all rfl] at hv
    exact absurd hv (by simp)
  exact (c9_item_fields_nonneg posItemsRoot posItemsContainer posItemElem
    (by with_unfolding_all rfl) hmem hp hg hw).2

/-- C10: every scalar text field is read through `_get_text`, which strips
the tag text (a whitespace-only text therefore becomes `""`); the
weight-scale fields turn a stripped-to-empty text into the default `"K"`;
and the route list entries are taken verbatim from the source — each decoded
entry is literally the text of some `string` child, with no trimming
applied. -/
theorem c10_text_stripping (elem itemElem root : XmlElem) (tag : String) :
    (∀ e t, XmlElem.find elem tag = some e → XmlElem.text e = some t →
      AWBParser.get_text elem tag = pyStrip t) ∧
    (∀ e t, XmlElem.find root "item-weight-scale" = some e → XmlElem.text e = some t →
      pyStrip t = "" → (AWBParser.parseRoot root).weight_scale = "K") ∧
    (∀ e t, XmlElem.find itemElem "scale" = some e → XmlElem.text e = some t →
      pyStrip t = "" → (AWBParser.item_of_elem itemElem).scale = "K") ∧
    (∀ t, t ∈ (AWBParser.parseRoot root).route.to_ →
      ∃ c s, XmlElem.find root "route-to" = some c ∧
        s ∈ XmlElem.findall c "string" ∧ XmlElem.text s = some t) := by
  have hstrip : ∀ (el : XmlElem) (tg : String) (e : XmlElem) (t : String),
      XmlElem.find el tg = some e → XmlElem.text e = some t →
      AWBParser.get_text el tg = pyStrip t := by
    intro el tg e t hf ht
    simp only [AWBParser.get_text, hf, ht]
    by_cases h0 : t = ""
    · subst h0
      simp [show pyStrip "" = "" from rfl]
    · simp [h0]
  refine ⟨hstrip elem tag, ?_, ?_, ?_⟩
  · intro e t hf ht hts
    show (let s := AWBParser.get_text root "item-weight-scale";
      if s = "" then "K" else s) = "K"
    rw [hstrip root "item-weight-scale" e t hf ht]
    simp [hts]
  · intro e t hf ht hts
    show (let s := AWBParser.get_text itemElem "scale";
      if s = "" then "K" else s) = "K"
    rw [hstrip itemElem "scale" e t hf ht]
    simp [hts]
  · intro t ht
    have ht2 : t ∈ AWBParser.string_texts (XmlElem.find root "route-to") := ht
    cases hc : XmlElem.find root "route-to" with
    | none =>
        rw [hc] at ht2
        exact absurd ht2 (by simp [AWBParser.string_texts])
    | some c =>
        rw [hc] at ht2
        unfold AWBParser.string_texts at ht2
        rw [List.mem_filterMap] at ht2
        obtain ⟨s, hs, hg⟩ := ht2
        refine ⟨c, s, rfl, hs, ?_⟩
        cases hst : XmlElem.text s with
        | none => rw [hst] at hg; exact absurd hg (by simp)
        | some u =>
            rw [hst] at hg
            by_cases hu : u = ""
            · subst hu
              exact absurd hg (by simp)
            · simp only [bne_iff_ne, ne_eq, hu, not_false_eq_true, if_true,
                Option.some.injEq] at hg
              rw [hg]

/-- C10 witness: `"  hello  "` in a text field decodes stripped to
`"hello"`, while the route entry `" GVA "` survives verbatim, surrounding
whitespace included. -/
theorem c10_witness :
    XmlElem.find routeRoot "notes" =
      some (XmlElem.mk "notes" (some "  hello  ") []) ∧
    AWBParser.get_text routeRoot "notes" = "hello" ∧
    (∃ c s, XmlElem.find routeRoot "route-to" = some c ∧
      s ∈ XmlElem.findall c "string" ∧ XmlElem.text s = some " GVA ") := by
  have h := c10_text_stripping routeRoot routeRoot routeRoot "notes"
  refine ⟨by with_unfolding_all rfl, ?_, ?_⟩
  · rw [h.1 (XmlElem.mk "notes" (some "  hello  ") []) "  hello  "
      (by with_unfolding_all rfl) rfl]
    with_unfolding_all rfl
  · refine h.2.2.2 " GVA " ?_
    have hr : (AWBParser.parseRoot routeRoot).route.to_ = [" GVA "] := by
      with_unfolding_all rfl
    rw [hr]
    exact List.mem_singleton_self " GVA "

/-- C2: one summary row per document, in order (stated positionally); the
row's numeric facts are the decoded top-line fields (chargeable weight and
other-charges total being sums over the nested lists); a document whose blob
is absent or fails to decode still yields its row with all numeric facts
zero, contributes no line-item and no other-charge rows, and the routing
section still has one row per document — the pass never aborts. -/
theorem c2_summary_rows (f : List Nat → Option XmlElem) (docs : List Document)
    (i : Nat) (doc : Document) (h : docs[i]? = some doc) :
    (ExportService.summaryRows f docs).length = docs.length ∧
    (ExportService.summaryRows f docs)[i]? =
      some (doc, ExportService.summaryFactsOf (ExportService.docDetails f doc)) ∧
    (∀ d, ExportService.docDetails f doc = some d →
      ExportService.summaryFactsOf (ExportService.docDetails f doc) =
        { pieces := d.total_pieces
          gross_weight := d.total_weight
          chargeable_weight := (d.items.map AWBItem.chargeable_weight).sum
          currency := d.currency
          items_total := d.items_total
          other_charges_sum := (d.other_charges.map OtherCharge.amount).sum
          prepaid_total := d.charges_summary.total_prepaid }) ∧
    (ExportService.docDetails f doc = none →
      ExportService.summaryFactsOf (ExportService.docDetails f doc) =
        { pieces := 0, gross_weight := 0, chargeable_weight := 0, currency := "",
          items_total := 0, other_charges_sum := 0, prepaid_total := 0 } ∧
      ExportService.docItemRows f doc = [] ∧
      ExportService.docChargeRows f doc = []) ∧
    (ExportService.routingRows f docs).length = docs.length := by
  refine ⟨?_, ?_, ?_, ?_, ?_⟩
  · simp [ExportService.summaryRows]
  · simp [ExportService.summaryRows, List.getElem?_map, h]
  · intro d hd
    rw [hd]
    rfl
  · intro hd
    rw [hd]
    exact ⟨rfl, by simp [ExportService.docItemRows, hd],
      by simp [ExportService.docChargeRows, hd]⟩
  · simp [ExportService.routingRows]

/-- C2 witness: a single blob-less document still produces its summary row. -/
theorem c2_witness :
    ([emptyDoc][0]? = some emptyDoc) ∧
    (ExportService.summaryRows noneF [emptyDoc]).length = 1 ∧
    ExportService.docItemRows noneF emptyDoc = [] := by
  have h := c2_summary_rows noneF [emptyDoc] 0 emptyDoc rfl
  exact ⟨rfl, h.1, (h.2.2.2.1 rfl).2.1⟩

/-- C6: the line-item section is the concatenation, in document order, of the
per-document blocks, each block listing the document's decoded line items in
source order; documents that decode to nothing contribute no block; in
particular three documents with item lists `[i1]`, `[i2, i3]`, `[]` yield
exactly the three rows `(doc1, i1)`, `(doc2, i2)`, `(doc2, i3)` in order. -/
theorem c6_line_item_rows (f : List Nat → Option XmlElem)
    (d1 d2 d3 : Document) (det1 det2 det3 : AWBDetails) (i1 i2 i3 : AWBItem)
    (h1 : ExportService.docDetails f d1 = some det1) (h1i : det1.items = [i1])
    (h2 : ExportService.docDetails f d2 = some det2) (h2i : det2.items = [i2, i3])
    (h3 : ExportService.docDetails f d3 = some det3) (h3i : det3.items = []) :
    (∀ ds1 ds2 : List Document, ExportService.itemRows f (ds1 ++ ds2) =
      ExportService.itemRows f ds1 ++ ExportService.itemRows f ds2) ∧
    (∀ d, ExportService.docDetails f d = none → ExportService.docItemRows f d = []) ∧
    ExportService.itemRows f [d1, d2, d3] =
      [ExportService.itemRowOf d1 det1 i1, ExportService.itemRowOf d2 det2 i2,
       ExportService.itemRowOf d2 det2 i3] := by
  refine ⟨?_, ?_, ?_⟩
  · intro ds1 ds2
    simp [ExportService.itemRows]
  · intro d hd
    simp [ExportService.docItemRows, hd]
  · simp [ExportService.itemRows, ExportService.docItemRows, h1, h2, h3, h1i, h2i, h3i]

/-- C6 witness: the order-preservation instance on three concrete documents
whose blobs decode to one, two and zero line items respectively. -/
theorem c6_witness :
    ExportService.docDetails itemsF itemsDoc1 = some (AWBParser.parseRoot itemsRoot1) ∧
    (AWBParser.parseRoot itemsRoot3).items = [] ∧
    (ExportService.itemRows itemsF [itemsDoc1, itemsDoc2, itemsDoc3]).length = 3 := by
  refine ⟨rfl, rfl, ?_⟩
  have h := (c6_line_item_rows itemsF itemsDoc1 itemsDoc2 itemsDoc3
      (AWBParser.parseRoot itemsRoot1) (AWBParser.parseRoot itemsRoot2)
      (AWBParser.parseRoot itemsRoot3)
      (AWBParser.item_of_elem (XmlElem.mk "awb-item" none
        [XmlElem.mk "pieces" (some "1") []]))
      (AWBParser.item_of_elem (XmlElem.mk "awb-item" none
        [XmlElem.mk "pieces" (some "2") []]))
      (AWBParser.item_of_elem (XmlElem.mk "awb-item" none
        [XmlElem.mk "pieces" (some "3") []]))
      rfl rfl rfl rfl rfl rfl).2.2
  rw [h]
  rfl

/-- Every route-list entry produced by the decoder is a non-empty string (the
comprehension filter `if s.text` excludes falsy texts). -/
theorem string_texts_ne_empty {c : Option XmlElem} :
    ∀ t ∈ AWBParser.string_texts c, t ≠ "" := by
  intro t ht
  cases c with
  | none => simp [AWBParser.string_texts] at ht
  | some e =>
      unfold AWBParser.string_texts at ht
      rw [List.mem_filterMap] at ht
      obtain ⟨s, _, hg⟩ := ht
      cases hst : XmlElem.text s with
      | none => rw [hst] at hg; exact absurd hg (by simp)
      | some u =>
          rw [hst] at hg
          by_cases hu : u = ""
          · subst hu
            exact absurd hg (by simp)
          · simp only [bne_iff_ne, ne_eq, hu, not_false_eq_true, if_true,
              Option.some.injEq] at hg
            exact hg ▸ hu

/-- A successful per-document decode always yields the parse of some tree. -/
theorem docDetails_some_shape {f : List Nat → Option XmlElem} {doc : Document}
    {d : AWBDetails} (h : ExportService.docDetails f doc = some d) :
    ∃ root, d = AWBParser.parseRoot root := by
  cases hdd : doc.document_data with
  | none =>
      simp only [ExportService.docDetails, hdd] at h
      exact absurd h (by simp)
  | some bs =>
      simp only [ExportService.docDetails, hdd] at h
      by_cases hbs : bs.isEmpty
      · rw [if_pos hbs] at h
        exact absurd h (by simp)
      · rw [if_neg hbs] at h
        simp only [AWBParser.parse] at h
        rw [if_neg hbs] at h
        cases hf : f bs with
        | none => rw [hf] at h; exact absurd h (by simp)
        | some root =>
            rw [hf] at h
            simp only [Option.some.injEq] at h
            exact ⟨root, h.symm⟩

/-- On lists without empty strings (in particular decoded route lists) the
`join(filter(None, ...)) if l else ""` pattern is a plain join. -/
theorem joinTruthy_eq_intercalate (sep : String) (l : List String)
    (hl : ∀ s ∈ l, s ≠ "") :
    ExportService.joinTruthy sep l = String.intercalate sep l := by
  unfold ExportService.joinTruthy
  by_cases he : l = []
  · subst he
    rfl
  · rw [if_neg (by simpa using he)]
    congr 1
    apply List.filter_eq_self.mpr
    intro s hs
    simpa using hl s hs

/-- C7: the routing section has exactly one row per input document, in input
order; when the decode succeeded the transit cell is the `to` list joined
with the arrow separator and the carrier and flight cells are the `by` and
`flights` lists joined with commas; when the blob was absent or the decode
failed, those three cells are empty strings. -/
theorem c7_routing_rows (f : List Nat → Option XmlElem) (docs : List Document)
    (i : Nat) (doc : Document) (h : docs[i]? = some doc) :
    (ExportService.routingRows f docs).length = docs.length ∧
    (ExportService.routingRows f docs)[i]? =
      some (ExportService.routingRowOf doc (ExportService.docDetails f doc)) ∧
    (∀ d, ExportService.docDetails f doc = some d →
      ExportService.routingRowOf doc (some d) =
        { document_number := doc.document_number
          document_date := doc.document_date
          origin := doc.origin
          destination := doc.destination
          via := String.intercalate " → " d.route.to_
          carriers := String.intercalate ", " d.route.by_
          flights := String.intercalate ", " d.route.flights
          handling := d.handling_information }) ∧
    (ExportService.docDetails f doc = none →
      ExportService.routingRowOf doc none =
        { document_number := doc.document_number
          document_date := doc.document_date
          origin := doc.origin
          destination := doc.destination
          via := "", carriers := "", flights := "", handling := "" }) := by
  refine ⟨?_, ?_, ?_, ?_⟩
  · simp [ExportService.routingRows]
  · simp [ExportService.routingRows, List.getElem?_map, h]
  · intro d hd
    obtain ⟨root, rfl⟩ := docDetails_some_shape hd
    show ExportService.routingRowOf doc (some (AWBParser.parseRoot root)) = _
    simp only [ExportService.routingRowOf]
    have hto : (AWBParser.parseRoot root).route.to_ =
        AWBParser.string_texts (XmlElem.find root "route-to") := rfl
    have hby : (AWBParser.parseRoot root).route.by_ =
        AWBParser.string_texts (XmlElem.find root "route-by") := rfl
    have hfl : (AWBParser.parseRoot root).route.flights =
        AWBParser.string_texts (XmlElem.find root "requested-flight") := rfl
    rw [joinTruthy_eq_intercalate " → " _ (hto ▸ string_texts_ne_empty),
      joinTruthy_eq_intercalate ", " _ (hby ▸ string_texts_ne_empty),
      joinTruthy_eq_intercalate ", " _ (hfl ▸ string_texts_ne_empty)]
  · intro _
    rfl

/-- C7 witness: one document whose decode yields the single transit stop
`" GVA "`, and the routing row joins it (here: the single entry itself). -/
theorem c7_witness :
    ([routeDoc][0]? = some routeDoc) ∧
    (ExportService.routingRows routeF [routeDoc]).length = 1 ∧
    ExportService.routingRowOf routeDoc (some (AWBParser.parseRoot routeRoot)) =
      { document_number := "R1"
        document_date := ""
        origin := ""
        destination := ""
        via := String.intercalate " → " (AWBParser.parseRoot routeRoot).route.to_
        carriers := String.intercalate ", " (AWBParser.parseRoot routeRoot).route.by_
        flights :=
          String.intercalate ", " (AWBParser.parseRoot routeRoot).route.flights
        handling := (AWBParser.parseRoot routeRoot).handling_information } := by
  have h := c7_routing_rows routeF [routeDoc] 0 routeDoc rfl
  exact ⟨rfl, h.1, h.2.2.1 (AWBParser.parseRoot routeRoot) rfl⟩

/-- C8: the PDF document table renders every document when there are at most
50; beyond that it renders exactly the first 50 and appends exactly one
synthetic overflow row, whose count is the number of undisplayed documents —
the overflow row appears precisely when documents were dropped. -/
theorem c8_pdf_truncation (f : List Nat → Option XmlElem) (docs : List Document) :
    (docs.length ≤ 50 →
      ExportService.pdfDocRows f docs =
        docs.map (fun d => ExportService.PdfRow.doc d (ExportService.docDetails f d))) ∧
    (50 < docs.length →
      ExportService.pdfDocRows f docs =
        (docs.take 50).map
            (fun d => ExportService.PdfRow.doc d (ExportService.docDetails f d)) ++
          [ExportService.PdfRow.more (docs.length - 50)] ∧
      (ExportService.pdfDocRows f docs).length = 51) ∧
    (∀ n, ExportService.PdfRow.more n ∈ ExportService.pdfDocRows f docs ↔
      (50 < docs.length ∧ n = docs.length - 50)) := by
  refine ⟨?_, ?_, ?_⟩
  · intro hle
    unfold ExportService.pdfDocRows
    rw [if_neg (by omega), List.take_of_length_le hle, List.append_nil]
  · intro hgt
    constructor
    · unfold ExportService.pdfDocRows
      rw [if_pos hgt]
    · unfold ExportService.pdfDocRows
      rw [if_pos hgt]
      simp [List.length_take]
      omega
  · intro n
    unfold ExportService.pdfDocRows
    constructor
    · intro hm
      rw [List.mem_append] at hm
      cases hm with
      | inl hm =>
          rw [List.mem_map] at hm
          obtain ⟨d, _, hd⟩ := hm
          exact absurd hd (by simp)
      | inr hm =>
          by_cases hgt : 50 < docs.length
          · rw [if_pos hgt] at hm
            rw [List.mem_singleton] at hm
            obtain ⟨rfl⟩ := ExportService.PdfRow.more.inj hm
            exact ⟨hgt, rfl⟩
          · rw [if_neg hgt] at hm
            exact absurd hm (by simp)
    · rintro ⟨hgt, rfl⟩
      rw [if_pos hgt]
      exact List.mem_append_right _ (List.mem_singleton_self _)

/-- C8 witness: 51 documents produce a 51-row table (50 document rows plus
the overflow row announcing 1 more document). -/
theorem c8_witness :
    50 < manyDocs.length ∧
    (ExportService.pdfDocRows noneF manyDocs).length = 51 ∧
    (ExportService.PdfRow.more 1 ∈ ExportService.pdfDocRows noneF manyDocs) := by
  have hgt : 50 < manyDocs.length := by
    simp [manyDocs]
  have h := c8_pdf_truncation noneF manyDocs
  refine ⟨hgt, (h.2.1 hgt).2, ?_⟩
  rw [h.2.2 1]
  exact ⟨hgt, by simp [manyDocs]⟩

/-- One accumulation step of the summary loop adds exactly the document's
summary facts (a failed decode adds the all-zero facts, i.e. nothing). -/
theorem totStep_eq (f : List Nat → Option XmlElem) (t : ExportService.Totals)
    (doc : Document) :
    ExportService.totStep f t doc =
      { pieces := t.pieces +
          (ExportService.summaryFactsOf (ExportService.docDetails f doc)).pieces
        gross_weight := t.gross_weight +
          (ExportService.summaryFactsOf (ExportService.docDetails f doc)).gross_weight
        chargeable_weight := t.chargeable_weight +
          (ExportService.summaryFactsOf (ExportService.docDetails f doc)).chargeable_weight
        freight := t.freight +
          (ExportService.summaryFactsOf (ExportService.docDetails f doc)).items_total
        other_charges := t.other_charges +
          (ExportService.summaryFactsOf (ExportService.docDetails f doc)).other_charges_sum
        prepaid := t.prepaid +
          (ExportService.summaryFactsOf (ExportService.docDetails f doc)).prepaid_total } := by
  cases hd : ExportService.docDetails f doc with
  | none =>
      simp only [ExportService.totStep, hd, ExportService.summaryFactsOf]
      cases t
      simp
  | some d =>
      simp only [ExportService.totStep, hd, ExportService.summaryFactsOf]

/-- The six running totals after folding any prefix of the document list. -/
theorem foldl_totStep_eq (f : List Nat → Option XmlElem) (docs : List Document) :
    ∀ t : ExportService.Totals, docs.foldl (ExportService.totStep f) t =
      { pieces := t.pieces + ((docs.map (fun doc =>
          (ExportService.summaryFactsOf (ExportService.docDetails f doc)).pieces)).sum)
        gross_weight := t.gross_weight + ((docs.map (fun doc =>
          (ExportService.summaryFactsOf (ExportService.docDetails f doc)).gross_weight)).sum)
        chargeable_weight := t.chargeable_weight + ((docs.map (fun doc =>
          (ExportService.summaryFactsOf (ExportService.docDetails f doc)).chargeable_weight)).sum)
        freight := t.freight + ((docs.map (fun doc =>
          (ExportService.summaryFactsOf (ExportService.docDetails f doc)).items_total)).sum)
        other_charges := t.other_charges + ((docs.map (fun doc =>
          (ExportService.summaryFactsOf (ExportService.docDetails f doc)).other_charges_sum)).sum)
        prepaid := t.prepaid + ((docs.map (fun doc =>
          (ExportService.summaryFactsOf (ExportService.docDetails f doc)).prepaid_total)).sum) } := by
  induction docs with
  | nil =>
      intro t
      cases t
      simp
  | cons doc ds ih =>
      intro t
      rw [List.foldl_cons, ih, totStep_eq]
      simp only [List.map_cons, List.sum_cons, ExportService.Totals.mk.injEq]
      refine ⟨by ring, by ring, by ring, by ring, by ring, by ring⟩

/-- The totals accumulated by the whole summary loop are the per-document
sums. -/
theorem reportTotals_eq (f : List Nat → Option XmlElem) (docs : List Document) :
    ExportService.reportTotals f docs =
      { pieces := ((docs.map (fun doc =>
          (ExportService.summaryFactsOf (ExportService.docDetails f doc)).pieces)).sum)
        gross_weight := ((docs.map (fun doc =>
          (ExportService.summaryFactsOf (ExportService.docDetails f doc)).gross_weight)).sum)
        chargeable_weight := ((docs.map (fun doc =>
          (ExportService.summaryFactsOf (ExportService.docDetails f doc)).chargeable_weight)).sum)
        freight := ((docs.map (fun doc =>
          (ExportService.summaryFactsOf (ExportService.docDetails f doc)).items_total)).sum)
        other_charges := ((docs.map (fun doc =>
          (ExportService.summaryFactsOf (ExportService.docDetails f doc)).other_charges_sum)).sum)
        prepaid := ((docs.map (fun doc =>
          (ExportService.summaryFactsOf (ExportService.docDetails f doc)).prepaid_total)).sum) } := by
  unfold ExportService.reportTotals
  rw [foldl_totStep_eq]
  simp

/-- C1 counterexample: the statistics block reports *rounded* totals, so the
claimed exact equality with the arithmetic sum of the per-document facts
fails — with one document of gross weight `0.125`, every decode succeeds,
the sum of the summary-row gross weights is `1/8 = 0.125`, but the block's
"Poids brut total (kg)" value is `round(0.125, 2) = 0.12 = 3/25`. -/
theorem c1_counterexample :
    (∀ doc ∈ [weightDoc], (ExportService.docDetails weightF doc).isSome) ∧
    (ExportService.statsBlock weightF [weightDoc])[2]? =
      some ("Poids brut total (kg)", (3/25 : ℚ)) ∧
    ((ExportService.summaryRows weightF [weightDoc]).map
        (fun r => r.2.gross_weight)).sum = (1/8 : ℚ) ∧
    (3/25 : ℚ) ≠ (1/8 : ℚ) := by
  refine ⟨?_, ?_, ?_, by norm_num⟩
  · intro doc hdoc
    rw [List.mem_singleton] at hdoc
    subst hdoc
    with_unfolding_all rfl
  · with_unfolding_all rfl
  · with_unfolding_all rfl

/-- C1 (amended): for document lists on which every decode succeeds, the
statistics block's document count is the list length and its pieces total is
the exact sum of the per-row pieces; the five monetary/weight totals are the
per-row sums **rounded to 2 decimal places**; and the three averages are
total/count **rounded (pieces and weight to 1 decimal, prepaid amount to 2)**
when the document list is non-empty, `0` otherwise. -/
theorem c1_statistics_block (f : List Nat → Option XmlElem) (docs : List Document)
    (hall : ∀ doc ∈ docs, (ExportService.docDetails f doc).isSome) :
    ExportService.statsBlock f docs =
      [("Nombre de documents", (docs.length : ℚ)),
       ("Total pièces",
         ((((ExportService.summaryRows f docs).map (fun r => r.2.pieces)).sum : ℤ) : ℚ)),
       ("Poids brut total (kg)",
         pyRound (((ExportService.summaryRows f docs).map
           (fun r => r.2.gross_weight)).sum) 2),
       ("Poids taxable total (kg)",
         pyRound (((ExportService.summaryRows f docs).map
           (fun r => r.2.chargeable_weight)).sum) 2),
       ("Total fret",
         pyRound (((ExportService.summaryRows f docs).map
           (fun r => r.2.items_total)).sum) 2),
       ("Total autres frais",
         pyRound (((ExportService.summaryRows f docs).map
           (fun r => r.2.other_charges_sum)).sum) 2),
       ("Total prépayé",
         pyRound (((ExportService.summaryRows f docs).map
           (fun r => r.2.prepaid_total)).sum) 2),
       ("Moyenne pièces/AWB",
         if docs.isEmpty then 0
         else pyRound (((((ExportService.summaryRows f docs).map
           (fun r => r.2.pieces)).sum : ℤ) : ℚ) / (docs.length : ℚ)) 1),
       ("Moyenne poids/AWB (kg)",
         if docs.isEmpty then 0
         else pyRound ((((ExportService.summaryRows f docs).map
           (fun r => r.2.gross_weight)).sum) / (docs.length : ℚ)) 1),
       ("Moyenne montant/AWB",
         if docs.isEmpty then 0
         else pyRound ((((ExportService.summaryRows f docs).map
           (fun r => r.2.prepaid_total)).sum) / (docs.length : ℚ)) 2)] := by
  simp only [ExportService.statsBlock, reportTotals_eq, ExportService.summaryRows,
    List.map_map]
  rfl

/-- C1 witness: the amended theorem applied to the single-document list whose
decode succeeds; the block has its ten rows. -/
theorem c1_witness :
    (∀ doc ∈ [weightDoc], (ExportService.docDetails weightF doc).isSome) ∧
    (ExportService.statsBlock weightF [weightDoc]).length = 10 := by
  have hall : ∀ doc ∈ [weightDoc], (ExportService.docDetails weightF doc).isSome := by
    intro doc hdoc
    rw [List.mem_singleton] at hdoc
    subst hdoc
    with_unfolding_all rfl
  refine ⟨hall, ?_⟩
  rw [c1_statistics_block weightF [weightDoc] hall]
  rfl
